import Mathlib

/-!
Verification of the node-connection protocol engine of `radixdlt-js`
(`src/modules/universe/RadixNodeConnection.ts`).

The embedding models the reactive primitives (`Subject`, `BehaviorSubject`
from rxjs) by the sequence of stream events a subscriber attached at
creation time observes, together with the stopped flag: after `complete`
or `error` the stream delivers nothing further to its subscribers.
Each event handler of the connection becomes an explicit state-transformer
on `ConnState`, the record of the connection's bookkeeping tables.
Fallible paths (a handler dereferencing a missing table entry would throw
in the source) return `Option`.
-/

set_option maxRecDepth 4096

/-- One event observed on a reactive stream: a value, an error carrying a
string (the source only ever errors with strings), or completion. -/
inductive StreamEvent (α : Type) : Type where
  | next (v : α)
  | error (e : String)
  | complete
  deriving Repr, DecidableEq

/-- An rxjs `Subject`, modelled by the events a from-creation subscriber
observes plus whether the stream has terminated. -/
structure Subject (α : Type) : Type where
  events : List (StreamEvent α)
  closed : Bool
  deriving Repr, DecidableEq

/-- `new Subject()` : no events yet, not terminated. -/
def Subject.empty {α : Type} : Subject α := { events := [], closed := false }

/-- `subject.next(v)` : delivered only while the stream has not terminated. -/
def Subject.next {α : Type} (s : Subject α) (v : α) : Subject α :=
  if s.closed then s else { events := s.events ++ [StreamEvent.next v], closed := false }

/-- `subject.error(e)` : terminates the stream; a no-op on the observed
events once the stream has already terminated (observers are gone). -/
def Subject.error {α : Type} (s : Subject α) (e : String) : Subject α :=
  if s.closed then s else { events := s.events ++ [StreamEvent.error e], closed := true }

/-- `subject.complete()` : terminates the stream; no-op once terminated. -/
def Subject.complete {α : Type} (s : Subject α) : Subject α :=
  if s.closed then s else { events := s.events ++ [StreamEvent.complete], closed := true }

/-- An rxjs `BehaviorSubject`: like `Subject` but holds a current value,
which a new subscriber receives immediately on subscription. -/
structure BehaviorSubject (α : Type) : Type where
  events : List (StreamEvent α)
  closed : Bool
  current : α
  deriving Repr, DecidableEq

/-- `new BehaviorSubject(v)` : a from-creation subscriber observes `v` at
once — the initial value is replayed. -/
def BehaviorSubject.create {α : Type} (v : α) : BehaviorSubject α :=
  { events := [StreamEvent.next v], closed := false, current := v }

/-- `behaviorSubject.next(v)`. -/
def BehaviorSubject.next {α : Type} (s : BehaviorSubject α) (v : α) : BehaviorSubject α :=
  if s.closed then s
  else { events := s.events ++ [StreamEvent.next v], closed := false, current := v }

/-- `behaviorSubject.error(e)`. -/
def BehaviorSubject.error {α : Type} (s : BehaviorSubject α) (e : String) : BehaviorSubject α :=
  if s.closed then s
  else { events := s.events ++ [StreamEvent.error e], closed := true, current := s.current }

/-- `behaviorSubject.complete()`. -/
def BehaviorSubject.complete {α : Type} (s : BehaviorSubject α) : BehaviorSubject α :=
  if s.closed then s
  else { events := s.events ++ [StreamEvent.complete], closed := true, current := s.current }

/-- Terminal events are `error` and `complete`. -/
def StreamEvent.isTerminal {α : Type} : StreamEvent α → Bool
  | StreamEvent.next _ => false
  | StreamEvent.error _ => true
  | StreamEvent.complete => true

/-- Number of terminal events delivered on a stream. -/
def terminalCount {α : Type} (l : List (StreamEvent α)) : Nat :=
  (l.filter StreamEvent.isTerminal).length

/-- A subject is well formed when it has delivered exactly one terminal
event if terminated and none otherwise; every subject reachable from
`Subject.empty` by the operations above satisfies this. -/
def Subject.wfB {α : Type} (s : Subject α) : Bool :=
  terminalCount s.events == (if s.closed then 1 else 0)

/-- Well-formedness for `BehaviorSubject`, as for `Subject`. -/
def BehaviorSubject.wfB {α : Type} (s : BehaviorSubject α) : Bool :=
  terminalCount s.events == (if s.closed then 1 else 0)

/-- A deserialized ledger atom; the connection treats atoms opaquely, so
only an abstract payload is modelled. -/
structure RadixAtom where
  payload : Nat
  deriving Repr, DecidableEq

/-- A wire-encoded (JSON) atom as carried by a node notification. -/
structure WireAtom where
  wirePayload : Nat
  deriving Repr, DecidableEq

/-- The update record pushed to a subscription channel:
`{ action: 'STORE', atom, processedData: {} }`. -/
structure RadixAtomUpdate where
  action : String
  atom : RadixAtom
  deriving Repr, DecidableEq

/-- Lookup in a JS-object-as-map, modelled as an association list in key
insertion order. -/
def alGet {β : Type} : List (String × β) → String → Option β
  | [], _ => none
  | (k2, v) :: rest, k => if k2 = k then some v else alGet rest k

/-- `obj[k] = v` : overwrite the existing entry or append a new one. -/
def alSet {β : Type} : List (String × β) → String → β → List (String × β)
  | [], k, v => [(k, v)]
  | (k2, v2) :: rest, k, v =>
      if k2 = k then (k2, v) :: rest else (k2, v2) :: alSet rest k v

/-- `delete obj[k]`. -/
def alRemove {β : Type} : List (String × β) → String → List (String × β)
  | [], _ => []
  | (k2, v) :: rest, k =>
      if k2 = k then alRemove rest k else (k2, v) :: alRemove rest k

/-- The bookkeeping state of one `RadixNodeConnection`. -/
structure ConnState where
  /-- `_subscriptions` : subscriber id to the per-address atom-update channel. -/
  subscriptions : List (String × Subject RadixAtomUpdate)
  /-- `_atomUpdateSubjects` : subscriber id to the submission state stream. -/
  atomUpdateSubjects : List (String × BehaviorSubject String)
  /-- `_addressSubscriptions` : address to subscriber id. -/
  addressSubscriptions : List (String × String)
  /-- `_syncedSubscriptions` : subscriber id to the sync-status channel. -/
  syncedSubscriptions : List (String × BehaviorSubject Bool)
  /-- For each submission, whether its acknowledgment timeout timer is
  still armed (`clearTimeout` not yet called). -/
  submitTimersArmed : List (String × Bool)
  /-- `lastSubscriberId`. -/
  lastSubscriberId : Nat
  /-- Whether the `setInterval` ping probe is active. -/
  pingIntervalActive : Bool
  /-- Whether the connection-open timeout timer is still armed; the source
  has no `clearTimeout` for it. -/
  openTimerArmed : Bool
  /-- `_socket.ready`. -/
  socketReady : Bool
  deriving Repr, DecidableEq

/-- Connection state right after construction. -/
def initialState : ConnState :=
  { subscriptions := [], atomUpdateSubjects := [], addressSubscriptions := [],
    syncedSubscriptions := [], submitTimersArmed := [],
    lastSubscriberId := 1, pingIntervalActive := false,
    openTimerArmed := false, socketReady := false }

/-- `getSubscriberId()` : increments `lastSubscriberId` and returns its
string form. -/
def getSubscriberId (st : ConnState) : ConnState × String :=
  ({ st with lastSubscriberId := st.lastSubscriberId + 1 },
   toString (st.lastSubscriberId + 1))

/-- The 5000 ms connection-open timeout of `openConnection`. -/
def openTimeoutMs : Nat := 5000

/-- The 5000 ms submission-acknowledgment timeout of `submitAtom`. -/
def submitTimeoutMs : Nat := 5000

/-- The 10000 ms ping interval armed when the socket opens. -/
def pingIntervalMs : Nat := 10000

/-- `openConnection()` : creates a fresh socket (not ready) and arms the
open-timeout timer; the source never calls `clearTimeout` on it. -/
def openConnection (st : ConnState) : ConnState :=
  { st with socketReady := false, openTimerArmed := true }

/-- The socket `open` handler: the socket is ready and the ping interval
starts. -/
def onOpen (st : ConnState) : ConnState :=
  { st with socketReady := true, pingIntervalActive := true }

/-- The open-timeout handler: fires after `openTimeoutMs`; when the socket
is ready it does nothing, otherwise it closes the socket and rejects the
open promise (the socket close event then follows asynchronously). -/
def openTimeoutFired (st : ConnState) : ConnState :=
  if st.socketReady then st else { st with socketReady := false }

/-- `subscribe(address)` : allocates a fresh subscriber id, registers the
delivery channel and an unsynced status channel, issues `Atoms.subscribe`
and returns the channel at once. -/
def subscribe (st : ConnState) (address : String) : ConnState × String :=
  let p := getSubscriberId st
  ({ p.1 with
      addressSubscriptions := alSet p.1.addressSubscriptions address p.2,
      subscriptions := alSet p.1.subscriptions p.2 Subject.empty,
      syncedSubscriptions := alSet p.1.syncedSubscriptions p.2 (BehaviorSubject.create false) },
   p.2)

/-- The rejection handler of the `Atoms.subscribe` call: the delivery
channel is errored. -/
def subscribeRpcRejected (st : ConnState) (sid : String) (e : String) : Option ConnState :=
  match alGet st.subscriptions sid with
  | none => none
  | some subj =>
      some { st with subscriptions := alSet st.subscriptions sid (Subject.error subj e) }

/-- `unsubscribe(address)`, run to quiescence with the outcome of the
`Atoms.cancel` call supplied as `rpcResult`. Returns the subscriber id the
cancel call was keyed with, the resulting state, and the settled promise.
On rejection nothing is mutated; on resolution the address entry is
deleted and the delivery channel completed. Modelled only for addresses
that are present — for a missing address the source issues the call with
an undefined id and its success callback throws. -/
def unsubscribe (st : ConnState) (address : String)
    (rpcResult : Except String String) :
    Option (String × ConnState × Except String String) :=
  match alGet st.addressSubscriptions address with
  | none => none
  | some sid =>
      match rpcResult with
      | Except.error e => some (sid, st, Except.error e)
      | Except.ok r =>
          match alGet st.subscriptions sid with
          | none => none
          | some subj =>
              some (sid,
                { st with
                    addressSubscriptions := alRemove st.addressSubscriptions address,
                    subscriptions := alSet st.subscriptions sid (Subject.complete subj) },
                Except.ok r)

/-- A promise outcome together with the instant (abstract clock) at which
it settles. -/
structure TimedOutcome (α : Type) where
  time : Nat
  result : Except String α
  deriving Repr

instance {ε α : Type} [DecidableEq ε] [DecidableEq α] : DecidableEq (Except ε α) :=
  fun a b =>
    match a, b with
    | Except.error e1, Except.error e2 =>
        if h : e1 = e2 then isTrue (by rw [h]) else isFalse (by intro hc; cases hc; exact h rfl)
    | Except.error _, Except.ok _ => isFalse (by intro hc; cases hc)
    | Except.ok _, Except.error _ => isFalse (by intro hc; cases hc)
    | Except.ok v1, Except.ok v2 =>
        if h : v1 = v2 then isTrue (by rw [h]) else isFalse (by intro hc; cases hc; exact h rfl)

instance {α : Type} [DecidableEq α] : DecidableEq (TimedOutcome α) :=
  fun a b =>
    if h1 : a.time = b.time then
      if h2 : a.result = b.result then
        isTrue (by cases a; cases b; simp_all)
      else isFalse (by intro hc; rw [hc] at h2; exact h2 rfl)
    else isFalse (by intro hc; rw [hc] at h1; exact h1 rfl)

/-- The temporally first rejection among a list of promises: its settle
time and error, ties broken towards the earlier promise in the list. -/
def earliestRejection {α : Type} : List (TimedOutcome α) → Option (Nat × String)
  | [] => none
  | t :: rest =>
      match t.result with
      | Except.error e =>
          match earliestRejection rest with
          | none => some (t.time, e)
          | some (tm, e2) => if t.time ≤ tm then some (t.time, e) else some (tm, e2)
      | Except.ok _ => earliestRejection rest

/-- The instant at which the last of the promises settles. -/
def maxSettleTime {α : Type} (l : List (TimedOutcome α)) : Nat :=
  l.foldl (fun m t => max m t.time) 0

/-- `Promise.all` : resolves with every value once all promises resolve;
rejects with the first rejection as soon as that rejection occurs, without
waiting for the remaining promises. -/
def promiseAll {α : Type} (l : List (TimedOutcome α)) : TimedOutcome (List α) :=
  match earliestRejection l with
  | some (tm, e) => { time := tm, result := Except.error e }
  | none =>
      { time := maxSettleTime l,
        result := Except.ok (l.filterMap (fun t => t.result.toOption)) }

/-- `unsubscribeAll()` : fans out `unsubscribe` over every tracked address
(in table order, all cancel calls issued up front) and settles as the
`Promise.all` of the individual outcomes. Each individual outcome is the
settled promise of the corresponding `Atoms.cancel` call, supplied by the
environment `rpc`. -/
def unsubscribeAllOutcome (st : ConnState) (rpc : String → TimedOutcome String) :
    TimedOutcome (List String) :=
  promiseAll ((st.addressSubscriptions.map Prod.fst).map rpc)

/-- `submitAtom(atom)` : allocates a fresh subscriber id, registers a
`BehaviorSubject` initialised with `'CREATED'` as the submission state
stream, arms the acknowledgment timeout, issues
`Universe.submitAtomAndSubscribe` and returns the stream at once. -/
def submitAtom (st : ConnState) (_atom : RadixAtom) : ConnState × String :=
  let p := getSubscriberId st
  ({ p.1 with
      atomUpdateSubjects := alSet p.1.atomUpdateSubjects p.2 (BehaviorSubject.create "CREATED"),
      submitTimersArmed := alSet p.1.submitTimersArmed p.2 true },
   p.2)

/-- The resolution handler of the submit call: `clearTimeout` then
`next('SUBMITTED')`. -/
def submitRpcResolved (st : ConnState) (sid : String) : Option ConnState :=
  match alGet st.atomUpdateSubjects sid with
  | none => none
  | some subj =>
      some { st with
        submitTimersArmed := alSet st.submitTimersArmed sid false,
        atomUpdateSubjects :=
          alSet st.atomUpdateSubjects sid (BehaviorSubject.next subj "SUBMITTED") }

/-- The rejection handler of the submit call: `clearTimeout` then
`error(e)`. -/
def submitRpcRejected (st : ConnState) (sid : String) (e : String) : Option ConnState :=
  match alGet st.atomUpdateSubjects sid with
  | none => none
  | some subj =>
      some { st with
        submitTimersArmed := alSet st.submitTimersArmed sid false,
        atomUpdateSubjects :=
          alSet st.atomUpdateSubjects sid (BehaviorSubject.error subj e) }

/-- The submission-timeout handler (runs only while its timer is armed):
`this._socket.close()` then `error('Socket timeout')`; the socket close
event follows asynchronously. -/
def submitTimeoutFired (st : ConnState) (sid : String) : Option ConnState :=
  match alGet st.atomUpdateSubjects sid with
  | none => none
  | some subj =>
      some { st with
        socketReady := false,
        atomUpdateSubjects :=
          alSet st.atomUpdateSubjects sid (BehaviorSubject.error subj "Socket timeout") }

/-- An `AtomSubmissionState.onNext` server-push notification. -/
structure AtomSubmissionStateUpdateNotification where
  subscriberId : String
  value : String
  message : Option String
  deriving Repr, DecidableEq

/-- JavaScript string concatenation of a possibly-undefined value, as in
`value + ': ' + message`. -/
def jsOptToString : Option String → String
  | none => "undefined"
  | some s => s

/-- `_onAtomSubmissionStateUpdate` : dispatches on the notification value;
a value outside the seven known cases falls through the switch and
nothing happens. `none` models the uncaught exception thrown when a known
value arrives for an unregistered subscriber id. -/
def onAtomSubmissionStateUpdate (st : ConnState)
    (n : AtomSubmissionStateUpdateNotification) : Option ConnState :=
  let subjectOpt := alGet st.atomUpdateSubjects n.subscriberId
  if n.value = "SUBMITTING" ∨ n.value = "SUBMITTED" then
    match subjectOpt with
    | none => none
    | some subject =>
        let s2 := BehaviorSubject.next subject n.value
        some { st with atomUpdateSubjects := alSet st.atomUpdateSubjects n.subscriberId s2 }
  else if n.value = "STORED" then
    match subjectOpt with
    | none => none
    | some subject =>
        let s2 := BehaviorSubject.complete (BehaviorSubject.next subject n.value)
        some { st with atomUpdateSubjects := alSet st.atomUpdateSubjects n.subscriberId s2 }
  else if n.value = "COLLISION" ∨ n.value = "ILLEGAL_STATE" ∨
          n.value = "UNSUITABLE_PEER" ∨ n.value = "VALIDATION_ERROR" then
    match subjectOpt with
    | none => none
    | some subject =>
        let s2 := BehaviorSubject.error subject (n.value ++ ": " ++ jsOptToString n.message)
        some { st with atomUpdateSubjects := alSet st.atomUpdateSubjects n.subscriberId s2 }
  else
    some st

/-- Per-entry body of the `_onClosed` loop over `_subscriptions`: a
not-yet-terminated channel is errored with `'Socket closed'`, a
terminated one is left alone. -/
def closeSubjectEntry (p : String × Subject RadixAtomUpdate) :
    String × Subject RadixAtomUpdate :=
  if p.2.closed then p else (p.1, Subject.error p.2 "Socket closed")

/-- Per-entry body of the `_onClosed` loop over `_atomUpdateSubjects`. -/
def closeBehaviorEntry (p : String × BehaviorSubject String) :
    String × BehaviorSubject String :=
  if p.2.closed then p else (p.1, BehaviorSubject.error p.2 "Socket closed")

/-- `_onClosed`, the socket close handler: cancels the ping interval, then
errors every not-yet-terminated subscription channel and submission state
stream with `'Socket closed'`. -/
def onClosed (st : ConnState) : ConnState :=
  { st with
      pingIntervalActive := false,
      subscriptions := st.subscriptions.map closeSubjectEntry,
      atomUpdateSubjects := st.atomUpdateSubjects.map closeBehaviorEntry }

/-- An `Atoms.subscribeUpdate` server-push notification. -/
structure AtomReceivedNotification where
  subscriberId : String
  atoms : List WireAtom
  isHead : Bool
  deriving Repr, DecidableEq

/-- The update records a notification batch turns into, in batch order:
each wire atom deserialized by the codec `d` and wrapped with action
`'STORE'`. -/
def batchUpdates (d : WireAtom → RadixAtom) (atoms : List WireAtom) :
    List RadixAtomUpdate :=
  (atoms.map d).map (fun a => { action := "STORE", atom := a })

/-- The forwarding loop of `_onAtomReceivedNotification`: each update of
the batch pushed to the subscriber's delivery channel in order. For a
nonempty batch and an unregistered subscriber id the loop body throws
(`none`). -/
def forwardAtoms (st : ConnState) (sid : String) (updates : List RadixAtomUpdate) :
    Option ConnState :=
  if updates.isEmpty then some st
  else
    match alGet st.subscriptions sid with
    | none => none
    | some subj =>
        let s2 := updates.foldl Subject.next subj
        some { st with subscriptions := alSet st.subscriptions sid s2 }

/-- `_onAtomReceivedNotification` : deserializes the whole batch, runs the
log-only content-identifier diagnostic, forwards every update in batch
order, and only then pushes `isHead` to the subscriber's sync-status
channel. -/
def onAtomReceivedNotification (d : WireAtom → RadixAtom) (st : ConnState)
    (n : AtomReceivedNotification) : Option ConnState :=
  match forwardAtoms st n.subscriberId (batchUpdates d n.atoms) with
  | none => none
  | some st1 =>
      match alGet st1.syncedSubscriptions n.subscriberId with
      | none => none
      | some bs =>
          let s2 := BehaviorSubject.next bs n.isHead
          some { st1 with syncedSubscriptions := alSet st1.syncedSubscriptions n.subscriberId s2 }

/-- `getAtomById(id)` : issues `Atoms.getAtomInfo` with the identifier and
deserializes the response's result via the codec `d`; an RPC failure is
propagated unchanged and nothing else can fail — despite the
`NOT IMPLEMENTED` doc comment, no NotImplemented-style error exists on
this path. -/
def getAtomById (d : WireAtom → RadixAtom) (_id : Nat)
    (rpcResult : Except String WireAtom) : Except String RadixAtom :=
  match rpcResult with
  | Except.error e => Except.error e
  | Except.ok w => Except.ok (d w)

/-- The event trace a caller who subscribes to the stream returned by
`submitAtom` observes when the RPC call is accepted and the node then
reports `STORED`. -/
def submitStoredEvents (st : ConnState) (atom : RadixAtom) :
    Option (List (StreamEvent String)) := do
  let p := submitAtom st atom
  let st1 ← submitRpcResolved p.1 p.2
  let st2 ← onAtomSubmissionStateUpdate st1 ⟨p.2, "STORED", none⟩
  let subj ← alGet st2.atomUpdateSubjects p.2
  pure subj.events

/-- The event trace a caller who subscribes to the stream returned by
`submitAtom` observes when the RPC call is accepted and the node then
reports a terminal failure `r` with optional message `m`. -/
def submitFailureEvents (st : ConnState) (atom : RadixAtom) (r : String)
    (m : Option String) : Option (List (StreamEvent String)) := do
  let p := submitAtom st atom
  let st1 ← submitRpcResolved p.1 p.2
  let st2 ← onAtomSubmissionStateUpdate st1 ⟨p.2, r, m⟩
  let subj ← alGet st2.atomUpdateSubjects p.2
  pure subj.events

/-- A concrete codec for witnesses: the wire payload is the atom
payload. -/
def d0 : WireAtom → RadixAtom := fun w => { payload := w.wirePayload }

/-- A connection opened and subscribed to one address (subscriber id
`"2"`); used by concrete witnesses. -/
def c2State : ConnState := (subscribe (onOpen (openConnection initialState)) "addr1").1

/-- A connection with one open subscription, one already-completed
subscription, and one in-flight submission; used by the close witness. -/
def c3State : ConnState :=
  { subscriptions :=
      [("2", { events := [], closed := false }),
       ("3", { events := [StreamEvent.complete], closed := true })],
    atomUpdateSubjects :=
      [("4", { events := [StreamEvent.next "CREATED"], closed := false, current := "CREATED" })],
    addressSubscriptions := [("addrA", "2")],
    syncedSubscriptions := [("2", BehaviorSubject.create false)],
    submitTimersArmed := [("4", true)],
    lastSubscriberId := 4, pingIntervalActive := true,
    openTimerArmed := true, socketReady := true }

/-- A connection with one in-flight submission (subscriber id `"2"`);
used by the timeout witness. -/
def c4State : ConnState := (submitAtom (onOpen (openConnection initialState)) { payload := 1 }).1

/-- A connection tracking two address subscriptions; used by the
`unsubscribeAll` counterexample. -/
def c5State : ConnState :=
  (subscribe (subscribe (onOpen (openConnection initialState)) "addrA").1 "addrB").1

/-- An environment for the `unsubscribeAll` counterexample: the cancel
call for `addrA` rejects at instant 1, the one for `addrB` resolves at
instant 5. -/
def c5rpc : String → TimedOutcome String := fun addr =>
  if addr = "addrA" then { time := 1, result := Except.error "cancel failed" }
  else { time := 5, result := Except.ok "unsubscribed" }

/-- What holds of a notification batch delivered to subscriber `sid`
(claim C2): the whole batch is forwarded in order to the delivery channel
while the sync-status table is still untouched, and only then is `isHead`
pushed to the sync-status channel. -/
def C2conclusion (d : WireAtom → RadixAtom) (st : ConnState) (sid : String)
    (atoms : List WireAtom) (isHead : Bool) (subj : Subject RadixAtomUpdate)
    (bs : BehaviorSubject Bool) : Prop :=
  ∃ st1,
    forwardAtoms st sid (batchUpdates d atoms) = some st1 ∧
    alGet st1.subscriptions sid = some (Subject.mk (subj.events ++ (batchUpdates d atoms).map StreamEvent.next) false) ∧
    st1.syncedSubscriptions = st.syncedSubscriptions ∧
    onAtomReceivedNotification d st ⟨sid, atoms, isHead⟩ =
      some { st1 with syncedSubscriptions := alSet st1.syncedSubscriptions sid (BehaviorSubject.mk (bs.events ++ [StreamEvent.next isHead]) false isHead) }

/-- What holds after a transport close event (claim C3): the liveness
probe is cancelled; every subscription channel and submission state
stream is terminated, stays well formed, and never carries both a
completion and an error; already-terminated streams are untouched while
open ones receive exactly one `'Socket closed'` error; and a second close
changes nothing. -/
def C3conclusion (st : ConnState) : Prop :=
  (onClosed st).pingIntervalActive = false ∧
  (∀ p ∈ (onClosed st).subscriptions, p.2.closed = true ∧ Subject.wfB p.2 = true ∧
     ∀ e, ¬(StreamEvent.complete ∈ p.2.events ∧ StreamEvent.error e ∈ p.2.events)) ∧
  (∀ p ∈ (onClosed st).atomUpdateSubjects, p.2.closed = true ∧ BehaviorSubject.wfB p.2 = true ∧
     ∀ e, ¬(StreamEvent.complete ∈ p.2.events ∧ StreamEvent.error e ∈ p.2.events)) ∧
  (∀ p ∈ st.subscriptions, (p.2.closed = true → p ∈ (onClosed st).subscriptions) ∧
     (p.2.closed = false → (p.1, Subject.error p.2 "Socket closed") ∈ (onClosed st).subscriptions ∧
        (Subject.error p.2 "Socket closed").events = p.2.events ++ [StreamEvent.error "Socket closed"])) ∧
  (∀ p ∈ st.atomUpdateSubjects, (p.2.closed = true → p ∈ (onClosed st).atomUpdateSubjects) ∧
     (p.2.closed = false → (p.1, BehaviorSubject.error p.2 "Socket closed") ∈ (onClosed st).atomUpdateSubjects ∧
        (BehaviorSubject.error p.2 "Socket closed").events = p.2.events ++ [StreamEvent.error "Socket closed"])) ∧
  onClosed (onClosed st) = onClosed st

/-- What holds when the submission-acknowledgment timeout fires for an
in-flight submission (claim C4): the interval is 5000 ms, the transport
is closed, and the state stream is terminated with the timeout error. -/
def C4conclusion (st : ConnState) (sid : String) (subj : BehaviorSubject String) : Prop :=
  submitTimeoutMs = 5000 ∧
  ∃ st2, submitTimeoutFired st sid = some st2 ∧ st2.socketReady = false ∧
    alGet st2.atomUpdateSubjects sid =
      some (BehaviorSubject.mk (subj.events ++ [StreamEvent.error "Socket timeout"]) true subj.current)

/-- What holds of `unsubscribeAll` (claim C5, amended): it settles
successfully exactly when every individual cancel call resolves, and on
failure it settles with the temporally earliest rejection, at that
rejection's instant — not after the remaining unsubscriptions. -/
def C5conclusion (st : ConnState) (rpc : String → TimedOutcome String) : Prop :=
  ((∃ vs, (unsubscribeAllOutcome st rpc).result = Except.ok vs) ↔
     ∀ t ∈ (st.addressSubscriptions.map Prod.fst).map rpc, ∃ v, t.result = Except.ok v) ∧
  (∀ tm e, earliestRejection ((st.addressSubscriptions.map Prod.fst).map rpc) = some (tm, e) →
     unsubscribeAllOutcome st rpc = { time := tm, result := Except.error e } ∧
     ({ time := tm, result := Except.error e } : TimedOutcome String) ∈ (st.addressSubscriptions.map Prod.fst).map rpc ∧
     ∀ t ∈ (st.addressSubscriptions.map Prod.fst).map rpc, (∀ v, t.result ≠ Except.ok v) → tm ≤ t.time)

/-- What holds of `unsubscribe(address)` for an address with an active
subscription (claim C6): the cancel call is keyed by the address's
subscriber id; on failure the error is propagated and the state is left
exactly as it was; on success the address bookkeeping is removed and the
delivery channel is completed. -/
def C6conclusion (st : ConnState) (address sid : String)
    (subj : Subject RadixAtomUpdate) : Prop :=
  (∀ e, unsubscribe st address (Except.error e) = some (sid, st, Except.error e)) ∧
  (∀ r, ∃ st2, unsubscribe st address (Except.ok r) = some (sid, st2, Except.ok r) ∧
     alGet st2.addressSubscriptions address = none ∧
     alGet st2.subscriptions sid = some (Subject.mk (subj.events ++ [StreamEvent.complete]) true) ∧
     st2.atomUpdateSubjects = st.atomUpdateSubjects ∧
     st2.syncedSubscriptions = st.syncedSubscriptions ∧
     st2.submitTimersArmed = st.submitTimersArmed)

/-- What holds of the two single-shot timers (claim C7, amended): the
submission-acknowledgment timer is armed by `submitAtom` and cancelled by
`clearTimeout` whichever way the RPC call settles, while the
connection-open timer is never cancelled — its handler merely does
nothing when the socket turned ready. -/
def C7conclusion (st : ConnState) (sid : String) (atom : RadixAtom) : Prop :=
  alGet (submitAtom st atom).1.submitTimersArmed (submitAtom st atom).2 = some true ∧
  (∀ st2, submitRpcResolved st sid = some st2 → alGet st2.submitTimersArmed sid = some false) ∧
  (∀ e st2, submitRpcRejected st sid e = some st2 → alGet st2.submitTimersArmed sid = some false) ∧
  (st.socketReady = true → openTimeoutFired st = st)

/-- What holds of `getAtomById` (claim C9, amended): for every identifier
the response is deserialized and returned, an RPC failure is propagated
unchanged, and no NotImplemented-style error exists on this path. -/
def C9conclusion (d : WireAtom → RadixAtom) (id : Nat) : Prop :=
  (∀ w, getAtomById d id (Except.ok w) = Except.ok (d w)) ∧
  (∀ e, getAtomById d id (Except.error e) = Except.error e)

/-- The seven submission state values the `_onAtomSubmissionStateUpdate`
switch recognises. -/
def knownSubmissionValues : List String :=
  ["SUBMITTING", "SUBMITTED", "STORED", "COLLISION", "ILLEGAL_STATE",
   "UNSUITABLE_PEER", "VALIDATION_ERROR"]

theorem alGet_alSet_self {β : Type} (l : List (String × β)) (k : String) (v : β) :
    alGet (alSet l k v) k = some v := by
  induction l with
  | nil => simp [alSet, alGet]
  | cons p rest ih =>
      by_cases h : p.1 = k
      · simp [alSet, alGet, h]
      · simp only [alSet, alGet]
        rw [if_neg h, alGet, if_neg h]
        exact ih

theorem alGet_alRemove_self {β : Type} (l : List (String × β)) (k : String) :
    alGet (alRemove l k) k = none := by
  induction l with
  | nil => simp [alRemove, alGet]
  | cons p rest ih =>
      by_cases h : p.1 = k
      · simp only [alRemove]
        rw [if_pos h]
        exact ih
      · simp only [alRemove]
        rw [if_neg h, alGet, if_neg h]
        exact ih

/-- A map by a function that fixes every element of the list is the
identity. -/
theorem list_map_eq_self_of_mem {α : Type} {l : List α} {f : α → α}
    (h : ∀ a ∈ l, f a = a) : l.map f = l := by
  induction l with
  | nil => rfl
  | cons a rest ih =>
      simp only [List.map_cons]
      rw [h a (by simp), ih (fun b hb => h b (List.mem_cons_of_mem a hb))]

/-- A list containing two distinct elements has length at least two. -/
theorem two_mem_le_length {α : Type} {l : List α} {a b : α}
    (ha : a ∈ l) (hb : b ∈ l) (hab : a ≠ b) : 2 ≤ l.length := by
  induction l with
  | nil => cases ha
  | cons c rest ih =>
      rcases List.mem_cons.mp ha with rfl | ha2
      · rcases List.mem_cons.mp hb with rfl | hb2
        · exact absurd rfl hab
        · have := List.length_pos_of_mem hb2
          simp only [List.length_cons]
          omega
      · rcases List.mem_cons.mp hb with rfl | hb2
        · have := List.length_pos_of_mem ha2
          simp only [List.length_cons]
          omega
        · have := ih ha2 hb2
          simp only [List.length_cons]
          omega

/-- A stream that delivered at most one terminal event cannot have
delivered both a completion and an error. -/
theorem no_double_termination {α : Type} {l : List (StreamEvent α)}
    (h : terminalCount l ≤ 1) (e : String) :
    ¬(StreamEvent.complete ∈ l ∧ StreamEvent.error e ∈ l) := by
  rintro ⟨hc, he⟩
  have hc2 : StreamEvent.complete ∈ l.filter StreamEvent.isTerminal :=
    List.mem_filter.mpr ⟨hc, rfl⟩
  have he2 : StreamEvent.error e ∈ l.filter StreamEvent.isTerminal :=
    List.mem_filter.mpr ⟨he, rfl⟩
  have hne : (StreamEvent.complete : StreamEvent α) ≠ StreamEvent.error e := by
    intro hx; cases hx
  have := two_mem_le_length hc2 he2 hne
  unfold terminalCount at h
  omega

/-- Pushing a batch of values through an open subject appends exactly the
corresponding `next` events and leaves the subject open. -/
theorem foldl_next_events {α : Type} (updates : List α) (s : Subject α)
    (h : s.closed = false) :
    updates.foldl Subject.next s =
      { events := s.events ++ updates.map StreamEvent.next, closed := false } := by
  induction updates generalizing s with
  | nil =>
      cases s with
      | mk ev cl => simp_all
  | cons u rest ih =>
      simp only [List.foldl_cons, List.map_cons]
      rw [show Subject.next s u =
            { events := s.events ++ [StreamEvent.next u], closed := false } by
          simp [Subject.next, h]]
      rw [ih _ rfl]
      simp

/-- `Subject.next` preserves well-formedness. -/
theorem wfB_next {α : Type} (s : Subject α) (v : α)
    (h : s.wfB = true) : (s.next v).wfB = true := by
  unfold Subject.wfB Subject.next at *
  by_cases hc : s.closed
  · simp [hc] at *; exact h
  · simp [hc, terminalCount, StreamEvent.isTerminal] at *
    simpa [List.filter_append, StreamEvent.isTerminal] using h

/-- `Subject.error` on a well-formed subject yields a closed well-formed
subject. -/
theorem wfB_error {α : Type} (s : Subject α) (e : String)
    (h : s.wfB = true) : (s.error e).wfB = true ∧ (s.error e).closed = true := by
  unfold Subject.wfB Subject.error at *
  by_cases hc : s.closed
  · simp [hc] at *; exact h
  · simp [hc] at *
    simpa [terminalCount, List.filter_append, StreamEvent.isTerminal] using h

/-- `BehaviorSubject.error` on a well-formed subject yields a closed
well-formed subject. -/
theorem bwfB_error {α : Type} (s : BehaviorSubject α) (e : String)
    (h : s.wfB = true) : (s.error e).wfB = true ∧ (s.error e).closed = true := by
  unfold BehaviorSubject.wfB BehaviorSubject.error at *
  by_cases hc : s.closed
  · simp [hc] at *; exact h
  · simp [hc] at *
    simpa [terminalCount, List.filter_append, StreamEvent.isTerminal] using h

/-- A well-formed subject has delivered at most one terminal event. -/
theorem wfB_terminalCount_le {α : Type} (s : Subject α) (h : s.wfB = true) :
    terminalCount s.events ≤ 1 := by
  unfold Subject.wfB at h
  rw [beq_iff_eq] at h
  rw [h]
  split <;> omega

/-- A well-formed behavior subject has delivered at most one terminal
event. -/
theorem bwfB_terminalCount_le {α : Type} (s : BehaviorSubject α) (h : s.wfB = true) :
    terminalCount s.events ≤ 1 := by
  unfold BehaviorSubject.wfB at h
  rw [beq_iff_eq] at h
  rw [h]
  split <;> omega

/-- `earliestRejection` finds nothing exactly when every promise
resolves. -/
theorem earliestRejection_none_iff {α : Type} (l : List (TimedOutcome α)) :
    earliestRejection l = none ↔ ∀ t ∈ l, ∃ v, t.result = Except.ok v := by
  induction l with
  | nil => simp [earliestRejection]
  | cons t rest ih =>
      cases ht : t.result with
      | error e =>
          constructor
          · intro h
            exfalso
            cases hrest : earliestRejection rest with
            | none => simp [earliestRejection, ht, hrest] at h
            | some p =>
                cases p with
                | mk tm e2 =>
                    simp only [earliestRejection, ht, hrest] at h
                    split at h <;> simp_all
          · intro h
            obtain ⟨v, hv⟩ := h t (List.mem_cons_self t rest)
            rw [ht] at hv
            cases hv
      | ok v =>
          have heq : earliestRejection (t :: rest) = earliestRejection rest := by
            simp [earliestRejection, ht]
          rw [heq, ih]
          constructor
          · intro h t2 ht2
            rcases List.mem_cons.mp ht2 with rfl | h2
            · exact ⟨v, ht⟩
            · exact h t2 h2
          · intro h t2 ht2
            exact h t2 (List.mem_cons_of_mem t ht2)

/-- When `earliestRejection` yields a rejection, that rejection belongs to
the list and settles no later than every rejected promise of the list. -/
theorem earliestRejection_some_spec {α : Type} (l : List (TimedOutcome α))
    (tm : Nat) (e : String) (h : earliestRejection l = some (tm, e)) :
    ({ time := tm, result := Except.error e } : TimedOutcome α) ∈ l ∧
      ∀ t ∈ l, (∀ v, t.result ≠ Except.ok v) → tm ≤ t.time := by
  induction l generalizing tm e with
  | nil => simp [earliestRejection] at h
  | cons t rest ih =>
      cases ht : t.result with
      | ok v =>
          have hrec : earliestRejection rest = some (tm, e) := by
            simpa [earliestRejection, ht] using h
          obtain ⟨hmem, hmin⟩ := ih tm e hrec
          refine ⟨List.mem_cons_of_mem t hmem, ?_⟩
          intro t2 ht2 hrej
          rcases List.mem_cons.mp ht2 with rfl | h2
          · exact absurd ht (hrej v)
          · exact hmin t2 h2 hrej
      | error e0 =>
          cases hrest : earliestRejection rest with
          | none =>
              have hpair : t.time = tm ∧ e0 = e := by
                simpa [earliestRejection, ht, hrest] using h
              obtain ⟨htm, he⟩ := hpair
              subst htm
              subst he
              constructor
              · have hteq : t = { time := t.time, result := Except.error e0 } := by
                  cases t
                  simp_all
                rw [← hteq]
                exact List.mem_cons_self t rest
              · intro t2 ht2 hrej
                rcases List.mem_cons.mp ht2 with rfl | h2
                · exact le_refl _
                · exfalso
                  obtain ⟨v, hv⟩ := (earliestRejection_none_iff rest).mp hrest t2 h2
                  exact hrej v hv
          | some p =>
              cases p with
              | mk tm2 e2 =>
                  obtain ⟨hmem2, hmin2⟩ := ih tm2 e2 hrest
                  by_cases hle : t.time ≤ tm2
                  · have hpair : t.time = tm ∧ e0 = e := by
                      simp only [earliestRejection, ht, hrest] at h
                      rw [if_pos hle] at h
                      simpa using h
                    obtain ⟨htm, he⟩ := hpair
                    subst htm
                    subst he
                    constructor
                    · have hteq : t = { time := t.time, result := Except.error e0 } := by
                        cases t
                        simp_all
                      rw [← hteq]
                      exact List.mem_cons_self t rest
                    · intro t2 ht2 hrej
                      rcases List.mem_cons.mp ht2 with rfl | h2
                      · exact le_refl _
                      · exact le_trans hle (hmin2 t2 h2 hrej)
                  · have hpair : tm2 = tm ∧ e2 = e := by
                      simp only [earliestRejection, ht, hrest] at h
                      rw [if_neg hle] at h
                      simpa using h
                    obtain ⟨htm, he⟩ := hpair
                    subst htm
                    subst he
                    refine ⟨List.mem_cons_of_mem t hmem2, ?_⟩
                    intro t2 ht2 hrej
                    rcases List.mem_cons.mp ht2 with rfl | h2
                    · omega
                    · exact hmin2 t2 h2 hrej

/-- After the `_onClosed` loop body, a subscription entry is terminated. -/
theorem closeSubjectEntry_closed (p : String × Subject RadixAtomUpdate) :
    (closeSubjectEntry p).2.closed = true := by
  unfold closeSubjectEntry Subject.error
  by_cases h : p.2.closed = true <;> simp [h]

/-- The `_onClosed` loop body leaves a terminated entry untouched. -/
theorem closeSubjectEntry_fix (p : String × Subject RadixAtomUpdate)
    (h : p.2.closed = true) : closeSubjectEntry p = p := by
  unfold closeSubjectEntry
  simp [h]

/-- The `_onClosed` loop body preserves well-formedness. -/
theorem closeSubjectEntry_wf (p : String × Subject RadixAtomUpdate)
    (h : Subject.wfB p.2 = true) : Subject.wfB (closeSubjectEntry p).2 = true := by
  unfold closeSubjectEntry
  by_cases hc : p.2.closed = true
  · simp [hc, h]
  · simp only [hc, if_false, Bool.not_eq_true] at *
    simp only [hc, Bool.false_eq_true, if_false]
    exact (wfB_error p.2 "Socket closed" h).1

/-- After the `_onClosed` loop body, a submission entry is terminated. -/
theorem closeBehaviorEntry_closed (p : String × BehaviorSubject String) :
    (closeBehaviorEntry p).2.closed = true := by
  unfold closeBehaviorEntry BehaviorSubject.error
  by_cases h : p.2.closed = true <;> simp [h]

/-- The `_onClosed` loop body leaves a terminated submission entry
untouched. -/
theorem closeBehaviorEntry_fix (p : String × BehaviorSubject String)
    (h : p.2.closed = true) : closeBehaviorEntry p = p := by
  unfold closeBehaviorEntry
  simp [h]

/-- The `_onClosed` loop body preserves well-formedness of submission
entries. -/
theorem closeBehaviorEntry_wf (p : String × BehaviorSubject String)
    (h : BehaviorSubject.wfB p.2 = true) :
    BehaviorSubject.wfB (closeBehaviorEntry p).2 = true := by
  unfold closeBehaviorEntry
  by_cases hc : p.2.closed = true
  · simp [hc, h]
  · simp only [hc, Bool.false_eq_true, if_false]
    exact (bwfB_error p.2 "Socket closed" h).1

/-- Running `_onClosed` a second time changes nothing: every stream is
already terminated and is skipped. -/
theorem onClosed_idem (st : ConnState) : onClosed (onClosed st) = onClosed st := by
  cases st with
  | mk subs atoms addrs sync timers last ping otimer ready =>
      unfold onClosed
      simp only [ConnState.mk.injEq, and_true, true_and]
      refine ⟨?_, ?_⟩
      · apply list_map_eq_self_of_mem
        intro p hp
        obtain ⟨q, _, rfl⟩ := List.mem_map.mp hp
        exact closeSubjectEntry_fix _ (closeSubjectEntry_closed q)
      · apply list_map_eq_self_of_mem
        intro p hp
        obtain ⟨q, _, rfl⟩ := List.mem_map.mp hp
        exact closeBehaviorEntry_fix _ (closeBehaviorEntry_closed q)

/-- The forwarding loop of `_onAtomReceivedNotification` on an open
delivery channel: the batch's updates are appended to the channel in
order, the channel stays open, and the sync-status table is untouched. -/
theorem forwardAtoms_spec (st : ConnState) (sid : String)
    (updates : List RadixAtomUpdate) (subj : Subject RadixAtomUpdate)
    (hs : alGet st.subscriptions sid = some subj) (hso : subj.closed = false) :
    ∃ st1, forwardAtoms st sid updates = some st1 ∧
      alGet st1.subscriptions sid =
        some (Subject.mk (subj.events ++ updates.map StreamEvent.next) false) ∧
      st1.syncedSubscriptions = st.syncedSubscriptions ∧
      st1.atomUpdateSubjects = st.atomUpdateSubjects := by
  by_cases hempty : updates.isEmpty = true
  · have hnil : updates = [] := by
      cases updates with
      | nil => rfl
      | cons a rest => simp [List.isEmpty] at hempty
    subst hnil
    refine ⟨st, by simp [forwardAtoms], ?_, rfl, rfl⟩
    rw [hs]
    cases subj
    simp_all
  · refine ⟨{ st with subscriptions := alSet st.subscriptions sid (updates.foldl Subject.next subj) }, ?_, ?_, rfl, rfl⟩
    · unfold forwardAtoms
      rw [if_neg hempty, hs]
    · show alGet (alSet st.subscriptions sid (updates.foldl Subject.next subj)) sid = _
      rw [alGet_alSet_self, foldl_next_events updates subj hso]

/-- Claim C1, counterexample: with the RPC call accepted and the node
reporting `STORED`, the stream returned by `submitAtom` does NOT yield
exactly `Submitted, Stored` followed by completion — the subscriber also
observes the replayed initial `CREATED` value first. -/
theorem claim_C1_counterexample :
    ¬(submitStoredEvents initialState { payload := 0 } =
        some [StreamEvent.next "SUBMITTED", StreamEvent.next "STORED",
              StreamEvent.complete]) := by
  decide

/-- Claim C1 (amended): for a submitted atom whose RPC call is accepted
and for which the node then reports `STORED`, the state stream yields
exactly `CREATED` (the replayed initial value), `SUBMITTED`, `STORED`, in
that order, and then completes — no other values are observed. -/
theorem claim_C1_amended_thm (st : ConnState) (atom : RadixAtom) :
    submitStoredEvents st atom =
      some [StreamEvent.next "CREATED", StreamEvent.next "SUBMITTED",
            StreamEvent.next "STORED", StreamEvent.complete] := by
  simp [submitStoredEvents, submitAtom, getSubscriberId, submitRpcResolved,
        onAtomSubmissionStateUpdate, alGet_alSet_self, BehaviorSubject.create,
        BehaviorSubject.next, BehaviorSubject.complete]

/-- Claim C8: when the node reports `COLLISION`, `ILLEGAL_STATE`,
`UNSUITABLE_PEER` or `VALIDATION_ERROR` for a submitted atom, the state
stream yields `SUBMITTED` and then terminates with a single fatal error
whose value is the reason, `': '`, and the message — in particular for
`VALIDATION_ERROR` with message `"bad"` the error value carries both
`"VALIDATION_ERROR"` and `"bad"`. -/
theorem claim_C8_thm (st : ConnState) (atom : RadixAtom) (r : String) (m : Option String)
    (hr : r = "COLLISION" ∨ r = "ILLEGAL_STATE" ∨ r = "UNSUITABLE_PEER" ∨
          r = "VALIDATION_ERROR") :
    submitFailureEvents st atom r m =
      some [StreamEvent.next "CREATED", StreamEvent.next "SUBMITTED",
            StreamEvent.error (r ++ ": " ++ jsOptToString m)] := by
  rcases hr with rfl | rfl | rfl | rfl <;>
    simp [submitFailureEvents, submitAtom, getSubscriberId, submitRpcResolved,
          onAtomSubmissionStateUpdate, alGet_alSet_self, BehaviorSubject.create,
          BehaviorSubject.next, BehaviorSubject.error]

/-- Claim C8, witness: the `VALIDATION_ERROR` / `"bad"` instance. -/
theorem claim_C8_witness :
    ("VALIDATION_ERROR" = "COLLISION" ∨ "VALIDATION_ERROR" = "ILLEGAL_STATE" ∨
     "VALIDATION_ERROR" = "UNSUITABLE_PEER" ∨ "VALIDATION_ERROR" = "VALIDATION_ERROR") ∧
    submitFailureEvents initialState { payload := 0 } "VALIDATION_ERROR" (some "bad") =
      some [StreamEvent.next "CREATED", StreamEvent.next "SUBMITTED",
            StreamEvent.error ("VALIDATION_ERROR" ++ ": " ++ jsOptToString (some "bad"))] :=
  ⟨by decide,
   claim_C8_thm initialState { payload := 0 } "VALIDATION_ERROR" (some "bad") (by decide)⟩

/-- Claim C10: an inbound submission state-update whose value is none of
the seven known values leaves the connection state — in particular the
corresponding submission state stream — completely unchanged. -/
theorem claim_C10_thm (st : ConnState) (n : AtomSubmissionStateUpdateNotification)
    (h : n.value ∉ knownSubmissionValues) :
    onAtomSubmissionStateUpdate st n = some st := by
  simp only [knownSubmissionValues, List.mem_cons, List.not_mem_nil, or_false,
             not_or] at h
  obtain ⟨h1, h2, h3, h4, h5, h6, h7⟩ := h
  unfold onAtomSubmissionStateUpdate
  simp [h1, h2, h3, h4, h5, h6, h7]

/-- Claim C10, witness: a `QUEUED` notification for the in-flight
submission of `c4State` changes nothing. -/
theorem claim_C10_witness :
    ((⟨"2", "QUEUED", none⟩ : AtomSubmissionStateUpdateNotification).value ∉
       knownSubmissionValues) ∧
    onAtomSubmissionStateUpdate c4State ⟨"2", "QUEUED", none⟩ = some c4State :=
  ⟨by decide, claim_C10_thm c4State ⟨"2", "QUEUED", none⟩ (by decide)⟩

/-- Claim C2: an inbound atom notification for subscriber `sid` forwards
every atom of the batch, deserialized and wrapped as a `STORE` update, to
`sid`'s delivery channel in batch order, and pushes `isHead` to `sid`'s
sync-status channel only after the whole batch has been forwarded. -/
theorem claim_C2_thm (d : WireAtom → RadixAtom) (st : ConnState) (sid : String)
    (atoms : List WireAtom) (isHead : Bool) (subj : Subject RadixAtomUpdate)
    (bs : BehaviorSubject Bool)
    (hs : alGet st.subscriptions sid = some subj) (hso : subj.closed = false)
    (hb : alGet st.syncedSubscriptions sid = some bs) (hbo : bs.closed = false) :
    C2conclusion d st sid atoms isHead subj bs := by
  obtain ⟨st1, hf, hsub1, hsync1, _⟩ :=
    forwardAtoms_spec st sid (batchUpdates d atoms) subj hs hso
  refine ⟨st1, hf, hsub1, hsync1, ?_⟩
  unfold onAtomReceivedNotification
  simp only [hf, hsync1, hb]
  simp [BehaviorSubject.next, hbo]

/-- Claim C2, witness: a batch of three atoms for subscriber `"2"` of
`c2State`. -/
theorem claim_C2_witness :
    (alGet c2State.subscriptions "2" = some (Subject.empty : Subject RadixAtomUpdate) ∧
     (Subject.empty : Subject RadixAtomUpdate).closed = false ∧
     alGet c2State.syncedSubscriptions "2" = some (BehaviorSubject.create false) ∧
     (BehaviorSubject.create false).closed = false) ∧
    C2conclusion d0 c2State "2" [⟨10⟩, ⟨11⟩, ⟨12⟩] true Subject.empty
      (BehaviorSubject.create false) :=
  ⟨⟨by decide, by decide, by decide, by decide⟩,
   claim_C2_thm d0 c2State "2" [⟨10⟩, ⟨11⟩, ⟨12⟩] true Subject.empty
     (BehaviorSubject.create false) (by decide) (by decide) (by decide) (by decide)⟩

/-- Claim C3: a transport close event cancels the liveness probe and
terminates every active subscription channel and every in-flight
submission state stream with the connection-closed error, exactly once:
already-terminated streams are untouched, no stream ever both completes
and errors, and a second close changes nothing. -/
theorem claim_C3_thm (st : ConnState)
    (hsub : ∀ p ∈ st.subscriptions, Subject.wfB p.2 = true)
    (hatom : ∀ p ∈ st.atomUpdateSubjects, BehaviorSubject.wfB p.2 = true) :
    C3conclusion st := by
  refine ⟨rfl, ?_, ?_, ?_, ?_, onClosed_idem st⟩
  · intro p hp
    obtain ⟨q, hq, rfl⟩ := List.mem_map.mp hp
    have hwf := closeSubjectEntry_wf q (hsub q hq)
    refine ⟨closeSubjectEntry_closed q, hwf, ?_⟩
    intro e
    exact no_double_termination (wfB_terminalCount_le _ hwf) e
  · intro p hp
    obtain ⟨q, hq, rfl⟩ := List.mem_map.mp hp
    have hwf := closeBehaviorEntry_wf q (hatom q hq)
    refine ⟨closeBehaviorEntry_closed q, hwf, ?_⟩
    intro e
    exact no_double_termination (bwfB_terminalCount_le _ hwf) e
  · intro p hp
    constructor
    · intro hc
      have : closeSubjectEntry p = p := closeSubjectEntry_fix p hc
      rw [← this]
      exact List.mem_map_of_mem closeSubjectEntry hp
    · intro hc
      have hval : closeSubjectEntry p = (p.1, Subject.error p.2 "Socket closed") := by
        unfold closeSubjectEntry
        rw [if_neg (by simp [hc])]
      constructor
      · rw [← hval]
        exact List.mem_map_of_mem closeSubjectEntry hp
      · unfold Subject.error
        rw [if_neg (by simp [hc])]
  · intro p hp
    constructor
    · intro hc
      have : closeBehaviorEntry p = p := closeBehaviorEntry_fix p hc
      rw [← this]
      exact List.mem_map_of_mem closeBehaviorEntry hp
    · intro hc
      have hval : closeBehaviorEntry p = (p.1, BehaviorSubject.error p.2 "Socket closed") := by
        unfold closeBehaviorEntry
        rw [if_neg (by simp [hc])]
      constructor
      · rw [← hval]
        exact List.mem_map_of_mem closeBehaviorEntry hp
      · unfold BehaviorSubject.error
        rw [if_neg (by simp [hc])]

/-- Claim C3, witness: closing `c3State`, which holds an open
subscription, a completed subscription and an in-flight submission. -/
theorem claim_C3_witness :
    ((∀ p ∈ c3State.subscriptions, Subject.wfB p.2 = true) ∧
     (∀ p ∈ c3State.atomUpdateSubjects, BehaviorSubject.wfB p.2 = true)) ∧
    C3conclusion c3State :=
  ⟨⟨by decide, by decide⟩, claim_C3_thm c3State (by decide) (by decide)⟩

/-- Claim C4: when no acknowledgment arrives within the 5000 ms window
and the timeout fires for an in-flight submission, the transport is
closed and the submission state stream terminates with the timeout
failure. -/
theorem claim_C4_thm (st : ConnState) (sid : String) (subj : BehaviorSubject String)
    (h : alGet st.atomUpdateSubjects sid = some subj) (ho : subj.closed = false) :
    C4conclusion st sid subj := by
  refine ⟨rfl,
    { st with socketReady := false,
              atomUpdateSubjects := alSet st.atomUpdateSubjects sid (BehaviorSubject.error subj "Socket timeout") },
    ?_, rfl, ?_⟩
  · unfold submitTimeoutFired
    rw [h]
  · show alGet (alSet st.atomUpdateSubjects sid (BehaviorSubject.error subj "Socket timeout")) sid = _
    rw [alGet_alSet_self]
    unfold BehaviorSubject.error
    rw [if_neg (by simp [ho])]

/-- Claim C4, witness: the timeout firing for the in-flight submission
`"2"` of `c4State`. -/
theorem claim_C4_witness :
    (alGet c4State.atomUpdateSubjects "2" = some (BehaviorSubject.create "CREATED") ∧
     (BehaviorSubject.create "CREATED").closed = false) ∧
    C4conclusion c4State "2" (BehaviorSubject.create "CREATED") :=
  ⟨⟨by decide, by decide⟩,
   claim_C4_thm c4State "2" (BehaviorSubject.create "CREATED") (by decide) (by decide)⟩

/-- Claim C5, counterexample: with two tracked addresses whose cancel
calls settle at instants 1 (rejected) and 5 (resolved), `unsubscribeAll`
settles with the failure already at instant 1, before the other
unsubscription has completed at instant 5 — the failure is NOT reported
only after all individual unsubscriptions have completed. -/
theorem claim_C5_counterexample :
    (unsubscribeAllOutcome c5State c5rpc).result = Except.error "cancel failed" ∧
    (unsubscribeAllOutcome c5State c5rpc).time = 1 ∧
    maxSettleTime ((c5State.addressSubscriptions.map Prod.fst).map c5rpc) = 5 ∧
    (unsubscribeAllOutcome c5State c5rpc).time <
      maxSettleTime ((c5State.addressSubscriptions.map Prod.fst).map c5rpc) := by
  decide

/-- Claim C5 (amended): `unsubscribeAll` fans the cancel calls out over
every tracked address and succeeds exactly when every individual
unsubscription succeeds; on failure it settles with the temporally
earliest individual failure, at the instant that failure occurs — without
waiting for the remaining unsubscriptions. -/
theorem claim_C5_amended_thm (st : ConnState) (rpc : String → TimedOutcome String) :
    C5conclusion st rpc := by
  constructor
  · unfold unsubscribeAllOutcome promiseAll
    cases h : earliestRejection ((st.addressSubscriptions.map Prod.fst).map rpc) with
    | none =>
        simp only [h]
        constructor
        · intro _
          exact (earliestRejection_none_iff _).mp h
        · intro _
          exact ⟨_, rfl⟩
    | some p =>
        cases p with
        | mk tm e =>
            simp only [h]
            constructor
            · rintro ⟨vs, hvs⟩
              cases hvs
            · intro hall
              rw [(earliestRejection_none_iff _).mpr hall] at h
              cases h
  · intro tm e h
    obtain ⟨hmem, hmin⟩ := earliestRejection_some_spec _ tm e h
    refine ⟨?_, hmem, hmin⟩
    unfold unsubscribeAllOutcome promiseAll
    rw [h]

/-- Claim C6: for an address with an active subscription, `unsubscribe`
issues the cancel call keyed by that address's subscriber id; on failure
it propagates the error and leaves every bookkeeping table exactly as it
was; on success it removes the address entry and completes the delivery
channel. -/
theorem claim_C6_thm (st : ConnState) (address sid : String)
    (subj : Subject RadixAtomUpdate)
    (hadr : alGet st.addressSubscriptions address = some sid)
    (hs : alGet st.subscriptions sid = some subj) (ho : subj.closed = false) :
    C6conclusion st address sid subj := by
  constructor
  · intro e
    unfold unsubscribe
    simp only [hadr]
  · intro r
    refine ⟨{ st with
        addressSubscriptions := alRemove st.addressSubscriptions address,
        subscriptions := alSet st.subscriptions sid (Subject.complete subj) },
      ?_, ?_, ?_, rfl, rfl, rfl⟩
    · unfold unsubscribe
      simp only [hadr, hs]
    · exact alGet_alRemove_self st.addressSubscriptions address
    · show alGet (alSet st.subscriptions sid (Subject.complete subj)) sid = _
      rw [alGet_alSet_self]
      unfold Subject.complete
      rw [if_neg (by simp [ho])]

/-- Claim C6, witness: unsubscribing the tracked address `"addr1"` of
`c2State`. -/
theorem claim_C6_witness :
    (alGet c2State.addressSubscriptions "addr1" = some "2" ∧
     alGet c2State.subscriptions "2" = some (Subject.empty : Subject RadixAtomUpdate) ∧
     (Subject.empty : Subject RadixAtomUpdate).closed = false) ∧
    C6conclusion c2State "addr1" "2" Subject.empty :=
  ⟨⟨by decide, by decide, by decide⟩,
   claim_C6_thm c2State "addr1" "2" Subject.empty (by decide) (by decide) (by decide)⟩

/-- Claim C7, counterexample: after the connection-open transition
succeeds (socket ready), the 5-second connection-open timeout timer is
still armed — it is never cancelled, so NOT every single-shot timeout
timer is cancelled when its guarded transition succeeds. -/
theorem claim_C7_counterexample :
    (onOpen (openConnection initialState)).socketReady = true ∧
    (onOpen (openConnection initialState)).openTimerArmed = true := by
  decide

/-- Claim C7 (amended): the submission-acknowledgment timer is armed by
`submitAtom` and cancelled by `clearTimeout` whichever way the RPC call
settles, so it never fires after the acknowledgment; the connection-open
timer is never cancelled, but its handler re-checks socket readiness and
does nothing once the connection has opened, so its late firing has no
effect. -/
theorem claim_C7_amended_thm (st : ConnState) (sid : String) (atom : RadixAtom) :
    C7conclusion st sid atom := by
  refine ⟨?_, ?_, ?_, ?_⟩
  · simp [submitAtom, getSubscriberId, alGet_alSet_self]
  · intro st2 h
    unfold submitRpcResolved at h
    cases hg : alGet st.atomUpdateSubjects sid with
    | none => rw [hg] at h; cases h
    | some subj =>
        rw [hg] at h
        cases h
        exact alGet_alSet_self _ _ _
  · intro e st2 h
    unfold submitRpcRejected at h
    cases hg : alGet st.atomUpdateSubjects sid with
    | none => rw [hg] at h; cases h
    | some subj =>
        rw [hg] at h
        cases h
        exact alGet_alSet_self _ _ _
  · intro h
    unfold openTimeoutFired
    rw [if_pos h]

/-- Claim C9, counterexample: `getAtomById` silently returns deserialized
data for a lookup — no NotImplemented-style error is surfaced on any
path. -/
theorem claim_C9_counterexample :
    getAtomById d0 7 (Except.ok { wirePayload := 5 }) = Except.ok { payload := 5 } ∧
    getAtomById d0 7 (Except.ok { wirePayload := 5 }) ≠ Except.error "NotImplemented" := by
  decide

/-- Claim C9 (amended): for every identifier, `getAtomById` deserializes
and returns the node's response and propagates an RPC failure unchanged;
it never raises a NotImplemented-style error — the unimplemented status
of the route is recorded only in its documentation comment. -/
theorem claim_C9_amended_thm (d : WireAtom → RadixAtom) (id : Nat) :
    C9conclusion d id :=
  ⟨fun _ => rfl, fun _ => rfl⟩
